import Mathlib

/-!
Verification of the parakeet-diarized transcription service.

This file gives a shallow embedding of the pipeline logic of the repository
(`src/api.py`, `src/runpod_handler_transcription.py`,
`src/runpod_handler_orchestrator.py`, `src/diarization/__init__.py`) and proves
the behavioural properties claimed by the specification.

Modelling conventions:
* Python `float` seconds are modelled as `ℚ`; all operations used by the code
  on timestamps (`+`, `-`, `min`, `max`, comparisons) are exact on the rationals.
* Python dictionaries with a fixed key set are modelled as structures; an
  absent key is `Option.none`.
* External collaborators (ASR model, diarization model, HTTP transport,
  `format_srt`/`format_vtt` from the absent `transcription` module) are passed
  in as explicit parameters, so every function here is the deterministic part
  of the source made explicit.
* The `end` attribute of segments is renamed `stop` (`end` is a Lean keyword).
-/

namespace Parakeet

/-- Modelled from the spec: `Segment` of §3 of the specification.  The source
class `models.WhisperSegment` is imported by `src/api.py` and
`src/runpod_handler_transcription.py` but `models.py` is not part of the
sources; the fields are exactly those the sources read and write
(`id`, `start`, `end`, `text`, and the optional `speaker` attribute set by the
aligner). -/
structure WhisperSegment where
  id : Int
  start : ℚ
  stop : ℚ
  text : String
  speaker : Option String := none
deriving DecidableEq

/-- `SpeakerSegment` from `src/diarization/__init__.py`: a speech interval
attributed to one speaker (the dict shape `{start, end, speaker}` used by
`src/runpod_handler_transcription.py` is the same record). -/
structure SpeakerSegment where
  start : ℚ
  stop : ℚ
  speaker : String
deriving DecidableEq

/-- `DiarizationResult` from `src/diarization/__init__.py`. -/
structure DiarizationResult where
  segments : List SpeakerSegment
  num_speakers : Nat
deriving DecidableEq

/-! ## The speaker-alignment merge

`Diarizer.merge_with_transcription` (src/diarization/__init__.py:185-230) and
`merge_diarization_with_transcription`
(src/runpod_handler_transcription.py:130-168) have the same body, one reading
attributes of `SpeakerSegment`, the other dict keys; both are embedded by the
definitions below. -/

/-- Comparator realising Python's `overlapping.sort(key=lambda x: x[1],
reverse=True)`: the list is sorted descending by overlap duration and the sort
is stable, which is exactly `List.mergeSort` with this total preorder. -/
def durDesc (a b : String × ℚ) : Bool := b.2 ≤ a.2

/-- The `overlapping` list built by the merge loop: for each diarization
segment, `overlap_start = max(start, d.start)`, `overlap_end = min(end, d.end)`,
and the pair `(d.speaker, duration)` is kept only when
`overlap_end > overlap_start`. -/
def overlapsOf (diar : List SpeakerSegment) (start stop : ℚ) :
    List (String × ℚ) :=
  diar.filterMap fun d =>
    if max start d.start < min stop d.stop
    then some (d.speaker, min stop d.stop - max start d.start)
    else none

/-- The per-segment body of the merge loop: build `overlapping`, stable-sort it
descending by duration, take entry `[0]` if non-empty, else assign
`"unknown"`. -/
def assignSpeaker (diar : List SpeakerSegment) (seg : WhisperSegment) :
    WhisperSegment :=
  let overlapping := overlapsOf diar seg.start seg.stop
  match (overlapping.mergeSort durDesc).head? with
  | some p => { seg with speaker := some p.1 }
  | none => { seg with speaker := some "unknown" }

/-- `merge_diarization_with_transcription`
(src/runpod_handler_transcription.py:130-168): early-returns the transcription
segments when the diarization list is empty, otherwise assigns a speaker to
every transcription segment. -/
def merge_diarization_with_transcription (diarization_segments : List SpeakerSegment)
    (transcription_segments : List WhisperSegment) : List WhisperSegment :=
  if diarization_segments.isEmpty then transcription_segments
  else transcription_segments.map (assignSpeaker diarization_segments)

/-- `Diarizer.merge_with_transcription` (src/diarization/__init__.py:185-230);
its body is the same merge loop, guarded by `diarization.segments` being
non-empty. -/
def Diarizer.merge_with_transcription (diarization : DiarizationResult)
    (transcription_segments : List WhisperSegment) : List WhisperSegment :=
  merge_diarization_with_transcription diarization.segments transcription_segments

/-! ## Specification-side selection

The spec describes the winning diarization segment as the one with the largest
overlap duration `max(0, min(s.end, d.end) - max(s.start, d.start))`, ties
broken by first position in diarization-list order.  These definitions follow
the spec's words and are compared with the source embedding above. -/

/-- The spec's overlap formula `max(0, min(s.end, d.end) - max(s.start, d.start))`. -/
def specOverlap (seg : WhisperSegment) (d : SpeakerSegment) : ℚ :=
  max 0 (min seg.stop d.stop - max seg.start d.start)

/-- First element of the list attaining the maximal value of `f`
(the spec's tie-break: earliest in diarization-list order wins). -/
def firstArgmax (f : SpeakerSegment → ℚ) : List SpeakerSegment → Option SpeakerSegment
  | [] => none
  | d :: t =>
    match firstArgmax f t with
    | none => some d
    | some b => if f d < f b then some b else some d

/-- First pair of the list attaining the maximal duration; this is what
`sort(key=duration, reverse=True)` followed by `[0]` computes, because
Python's sort is stable. -/
def firstMaxPair : List (String × ℚ) → Option (String × ℚ)
  | [] => none
  | a :: t =>
    match firstMaxPair t with
    | none => some a
    | some b => if a.2 < b.2 then some b else some a

theorem durDesc_trans : ∀ a b c : String × ℚ, durDesc a b → durDesc b c → durDesc a c := by
  intro a b c hab hbc
  simp only [durDesc, decide_eq_true_eq] at *
  exact le_trans hbc hab

theorem durDesc_total : ∀ a b : String × ℚ, durDesc a b || durDesc b a := by
  intro a b
  simp only [durDesc, Bool.or_eq_true, decide_eq_true_eq]
  exact le_total b.2 a.2

/-- The head of the stable descending sort is the first maximal-duration pair. -/
theorem head?_mergeSort_durDesc (l : List (String × ℚ)) :
    (l.mergeSort durDesc).head? = firstMaxPair l := by
  induction l with
  | nil => simp [firstMaxPair]
  | cons a t ih =>
    obtain ⟨l₁, l₂, h₁, h₂, h₃⟩ := List.mergeSort_cons durDesc_trans durDesc_total a t
    match hl₁ : l₁ with
    | [] =>
      simp only [List.nil_append] at h₁ h₂
      rw [h₁]
      have hsorted := List.sorted_mergeSort durDesc_trans durDesc_total (a :: t)
      rw [h₁] at hsorted
      rw [h₂] at ih
      match hl₂ : l₂ with
      | [] =>
        simp only [List.head?] at ih
        simp [firstMaxPair, ← ih]
      | b :: l₂' =>
        simp only [List.head?] at ih
        have hab : durDesc a b := List.rel_of_pairwise_cons hsorted (List.mem_cons_self b l₂')
        simp only [durDesc, decide_eq_true_eq] at hab
        simp only [List.head?, firstMaxPair, ← ih]
        rw [if_neg (not_lt.mpr hab)]
    | c :: l₁' =>
      rw [h₂] at ih
      have hc : a.2 < c.2 := by
        have := h₃ c (List.mem_cons_self c l₁')
        simp only [durDesc, Bool.not_eq_true', decide_eq_false_iff_not, not_le] at this
        exact this
      simp only [List.cons_append, List.head?] at h₁ ih ⊢
      rw [h₁]
      simp only [List.head?, firstMaxPair, ← ih]
      rw [if_pos hc]

theorem specOverlap_nonneg (seg : WhisperSegment) (d : SpeakerSegment) :
    0 ≤ specOverlap seg d :=
  le_max_left 0 _

/-- The entry the merge loop keeps for one diarization segment, rephrased with
the spec's `max(0, ...)` overlap formula. -/
theorem overlap_entry (seg : WhisperSegment) (d : SpeakerSegment) :
    (if max seg.start d.start < min seg.stop d.stop
     then some (d.speaker, min seg.stop d.stop - max seg.start d.start)
     else none)
    = if 0 < specOverlap seg d then some (d.speaker, specOverlap seg d) else none := by
  unfold specOverlap
  rcases lt_or_ge (max seg.start d.start) (min seg.stop d.stop) with h | h
  · have hpos : (0 : ℚ) < min seg.stop d.stop - max seg.start d.start := sub_pos.mpr h
    rw [if_pos h, max_eq_right hpos.le, if_pos hpos]
  · have hnp : min seg.stop d.stop - max seg.start d.start ≤ 0 := sub_nonpos.mpr h
    rw [if_neg (not_lt.mpr h), if_neg]
    rw [max_eq_left hnp]
    exact lt_irrefl 0

theorem overlapsOf_eq_nil (seg : WhisperSegment) (diar : List SpeakerSegment)
    (h : ∀ d ∈ diar, ¬ 0 < specOverlap seg d) :
    overlapsOf diar seg.start seg.stop = [] := by
  rw [overlapsOf, List.filterMap_eq_nil_iff]
  intro d hd
  rw [overlap_entry seg d, if_neg (h d hd)]

theorem firstArgmax_mem {f : SpeakerSegment → ℚ} :
    ∀ {l : List SpeakerSegment} {b : SpeakerSegment}, firstArgmax f l = some b → b ∈ l := by
  intro l
  induction l with
  | nil => intro b h; simp [firstArgmax] at h
  | cons d t ih =>
    intro b h
    rw [firstArgmax] at h
    match ht : firstArgmax f t with
    | none => rw [ht] at h; cases h; exact List.mem_cons_self _ _
    | some c =>
      rw [ht] at h
      have h' : (if f d < f c then some c else some d) = some b := h
      by_cases hlt : f d < f c
      · rw [if_pos hlt] at h'
        cases h'
        exact List.mem_cons_of_mem _ (ih ht)
      · rw [if_neg hlt] at h'
        cases h'
        exact List.mem_cons_self _ _

/-- Bridge between the source computation (filter positive overlaps, stable
descending sort, head) and the spec selection (first argmax of the
`max(0, ...)` overlap over the whole diarization list): whenever some
diarization segment overlaps the transcript segment positively, the two agree,
and the winner itself has positive overlap. -/
theorem firstMaxPair_overlapsOf (seg : WhisperSegment) :
    ∀ diar : List SpeakerSegment, (∃ d ∈ diar, 0 < specOverlap seg d) →
    ∃ w, firstArgmax (specOverlap seg) diar = some w ∧ 0 < specOverlap seg w ∧
      firstMaxPair (overlapsOf diar seg.start seg.stop)
        = some (w.speaker, specOverlap seg w) := by
  intro diar
  induction diar with
  | nil => rintro ⟨d, hd, -⟩; cases hd
  | cons d t ih =>
    intro hex
    have hcons : overlapsOf (d :: t) seg.start seg.stop
        = (if 0 < specOverlap seg d then some (d.speaker, specOverlap seg d) else none).toList
          ++ overlapsOf t seg.start seg.stop := by
      simp only [overlapsOf, List.filterMap_cons]
      rw [overlap_entry seg d]
      by_cases hd : 0 < specOverlap seg d
      · simp [hd]
      · simp [hd]
    by_cases hd : 0 < specOverlap seg d
    · rw [if_pos hd, Option.toList_some, List.singleton_append] at hcons
      by_cases ht : ∃ x ∈ t, 0 < specOverlap seg x
      · obtain ⟨w, hw1, hw2, hw3⟩ := ih ht
        by_cases hlt : specOverlap seg d < specOverlap seg w
        · refine ⟨w, ?_, hw2, ?_⟩
          · simp only [firstArgmax, hw1]
            rw [if_pos hlt]
          · rw [hcons]
            simp only [firstMaxPair, hw3]
            rw [if_pos hlt]
        · refine ⟨d, ?_, hd, ?_⟩
          · simp only [firstArgmax, hw1]
            rw [if_neg hlt]
          · rw [hcons]
            simp only [firstMaxPair, hw3]
            rw [if_neg hlt]
      · push_neg at ht
        have hnil : overlapsOf t seg.start seg.stop = [] :=
          overlapsOf_eq_nil seg t (by intro x hx; exact not_lt.mpr (ht x hx))
        refine ⟨d, ?_, hd, ?_⟩
        · match harg : firstArgmax (specOverlap seg) t with
          | none => simp only [firstArgmax, harg]
          | some b =>
            have hb : specOverlap seg b ≤ 0 := ht b (firstArgmax_mem harg)
            simp only [firstArgmax, harg]
            rw [if_neg (not_lt.mpr (hb.trans hd.le))]
        · rw [hcons, hnil]
          simp [firstMaxPair]
    · rw [if_neg hd, Option.toList_none, List.nil_append] at hcons
      have ht : ∃ x ∈ t, 0 < specOverlap seg x := by
        obtain ⟨x, hx, hpx⟩ := hex
        rcases List.mem_cons.mp hx with rfl | hxt
        · exact absurd hpx hd
        · exact ⟨x, hxt, hpx⟩
      obtain ⟨w, hw1, hw2, hw3⟩ := ih ht
      refine ⟨w, ?_, hw2, ?_⟩
      · simp only [firstArgmax, hw1]
        rw [if_pos (lt_of_le_of_lt (not_lt.mp hd) hw2)]
      · rw [hcons, hw3]

/-- Executable characterization of `assignSpeaker`: sorting descending and
taking the head is taking the first maximal-duration entry. -/
theorem assignSpeaker_eq (diar : List SpeakerSegment) (seg : WhisperSegment) :
    assignSpeaker diar seg =
      match firstMaxPair (overlapsOf diar seg.start seg.stop) with
      | some p => { seg with speaker := some p.1 }
      | none => { seg with speaker := some "unknown" } := by
  rw [assignSpeaker, head?_mergeSort_durDesc]

/-- C1 counterexample: with transcript segment `[10, 11]` and the non-empty
diarization list `[{0, 1, "A"}]`, every overlap is `0`, so the maximal overlap
duration `max(0, ...)` is `0` and is achieved first by the segment labelled
`"A"`; the claim as stated therefore demands the label `"A"`, but the merge
assigns the sentinel `"unknown"`. -/
theorem merge_zero_overlap_counterexample :
    ((merge_diarization_with_transcription [⟨0, 1, "A"⟩] [⟨0, 10, 11, "x", none⟩])[0]?).bind
        WhisperSegment.speaker = some "unknown" ∧
    (firstArgmax (specOverlap ⟨0, 10, 11, "x", none⟩) [⟨0, 1, "A"⟩]).map
        SpeakerSegment.speaker = some "A" ∧
    (some "unknown" : Option String) ≠ some "A" := by
  refine ⟨?_, by norm_num [firstArgmax, specOverlap], by decide⟩
  simp [merge_diarization_with_transcription, assignSpeaker_eq, overlapsOf, firstMaxPair]

/-- C1 (amended): whenever at least one diarization segment has strictly
positive overlap with transcript segment `s`, the merge assigns to `s` the
speaker label of the diarization segment with the largest overlap duration
`max(0, min(s.end, d.end) - max(s.start, d.start))`, ties broken by first
position in diarization-list order (Python's stable descending sort followed by
taking entry `[0]`); when every overlap is `0` the merge instead assigns
`"unknown"` (see C5). -/
theorem merge_assigns_first_positive_argmax (diar : List SpeakerSegment)
    (segs : List WhisperSegment) (i : Nat) (s : WhisperSegment)
    (hs : segs[i]? = some s) (hpos : ∃ d ∈ diar, 0 < specOverlap s d) :
    ((merge_diarization_with_transcription diar segs)[i]?).bind WhisperSegment.speaker
      = (firstArgmax (specOverlap s) diar).map SpeakerSegment.speaker := by
  obtain ⟨w, hw1, hw2, hw3⟩ := firstMaxPair_overlapsOf s diar hpos
  have hne : diar.isEmpty = false := by
    obtain ⟨d, hd, -⟩ := hpos
    cases diar with
    | nil => cases hd
    | cons _ _ => rfl
  simp [merge_diarization_with_transcription, hne, hs, assignSpeaker_eq, hw3, hw1]

/-- Witness for C1 at the spec's own example: transcript `[2, 4]` against
diarization `[{1, 3, "A"}, {3, 5, "B"}]`; both overlaps are `1` and the
tie-break picks `"A"`. -/
theorem merge_assigns_first_positive_argmax_witness :
    ((merge_diarization_with_transcription [⟨1, 3, "A"⟩, ⟨3, 5, "B"⟩]
        [⟨0, 2, 4, "hello", none⟩])[0]?).bind WhisperSegment.speaker = some "A" :=
  (merge_assigns_first_positive_argmax [⟨1, 3, "A"⟩, ⟨3, 5, "B"⟩]
    [⟨0, 2, 4, "hello", none⟩] 0 ⟨0, 2, 4, "hello", none⟩ (by decide)
    ⟨⟨1, 3, "A"⟩, by simp, by norm_num [specOverlap]⟩).trans
    (by norm_num [firstArgmax, specOverlap])

theorem assignSpeaker_isSome (diar : List SpeakerSegment) (seg : WhisperSegment) :
    ∃ spk, (assignSpeaker diar seg).speaker = some spk := by
  rw [assignSpeaker_eq]
  cases firstMaxPair (overlapsOf diar seg.start seg.stop) with
  | none => exact ⟨"unknown", rfl⟩
  | some p => exact ⟨p.1, rfl⟩

theorem assignSpeaker_fields (diar : List SpeakerSegment) (seg : WhisperSegment) :
    (assignSpeaker diar seg).id = seg.id ∧ (assignSpeaker diar seg).start = seg.start ∧
    (assignSpeaker diar seg).stop = seg.stop ∧ (assignSpeaker diar seg).text = seg.text := by
  rw [assignSpeaker_eq]
  cases firstMaxPair (overlapsOf diar seg.start seg.stop) <;> exact ⟨rfl, rfl, rfl, rfl⟩

/-- C5: the merge writes a speaker on the transcript segments exactly when the
diarization segment list is non-empty: an empty list returns the sequence
unchanged with nothing written, a non-empty list gives every segment a speaker
value, and a segment with overlap `0` against every diarization segment gets
the sentinel `"unknown"`. -/
theorem merge_speaker_iff_diarization_nonempty (diarization : DiarizationResult)
    (segs : List WhisperSegment) :
    (diarization.segments = [] → Diarizer.merge_with_transcription diarization segs = segs) ∧
    (diarization.segments ≠ [] → ∀ (i : Nat) (s : WhisperSegment), segs[i]? = some s →
      ∃ spk, ((Diarizer.merge_with_transcription diarization segs)[i]?).bind
          WhisperSegment.speaker = some spk ∧
        ((∀ d ∈ diarization.segments, specOverlap s d = 0) → spk = "unknown")) := by
  constructor
  · intro h
    simp [Diarizer.merge_with_transcription, merge_diarization_with_transcription, h]
  · intro h i s hs
    have hne : diarization.segments.isEmpty = false := by
      cases hseg : diarization.segments with
      | nil => exact absurd hseg h
      | cons a t => rfl
    simp only [Diarizer.merge_with_transcription, merge_diarization_with_transcription, hne,
      Bool.false_eq_true, if_false, List.getElem?_map, hs, Option.map_some', Option.some_bind]
    rw [assignSpeaker_eq]
    cases hfm : firstMaxPair (overlapsOf diarization.segments s.start s.stop) with
    | none => exact ⟨"unknown", rfl, fun _ => rfl⟩
    | some p =>
      refine ⟨p.1, rfl, fun hz => ?_⟩
      have : overlapsOf diarization.segments s.start s.stop = [] :=
        overlapsOf_eq_nil s _ (by intro d hd; rw [hz d hd]; exact lt_irrefl 0)
      rw [this] at hfm
      cases hfm

/-- Witness for C5: the spec's no-overlap example — transcript `[10, 11]`
against a single diarization turn `[0, 5]` yields speaker `"unknown"`; the
hypotheses of the claim theorem are discharged at this concrete input. -/
theorem merge_speaker_iff_diarization_nonempty_witness :
    ∃ spk, ((Diarizer.merge_with_transcription ⟨[⟨0, 5, "A"⟩], 1⟩
        [⟨0, 10, 11, "x", none⟩])[0]?).bind WhisperSegment.speaker = some spk ∧
      spk = "unknown" := by
  obtain ⟨spk, h1, h2⟩ := (merge_speaker_iff_diarization_nonempty ⟨[⟨0, 5, "A"⟩], 1⟩
      [⟨0, 10, 11, "x", none⟩]).2 (by simp) 0 ⟨0, 10, 11, "x", none⟩ (by decide)
  refine ⟨spk, h1, h2 ?_⟩
  intro d hd
  simp only [List.mem_singleton] at hd
  subst hd
  norm_num [specOverlap]

/-- C9: the speaker-alignment merge is a frame-preserving map — the output
sequence has the same length, the segment at every position keeps its `id`,
`start`, `end` and `text` unchanged, and the only field the aligner ever
writes is `speaker` (left untouched when the diarization list is empty,
otherwise set to the single value chosen by `assignSpeaker`). -/
theorem merge_frame_preservation (diar : List SpeakerSegment)
    (segs : List WhisperSegment) :
    (merge_diarization_with_transcription diar segs).length = segs.length ∧
    ∀ (i : Nat) (s : WhisperSegment), segs[i]? = some s → ∃ s',
      (merge_diarization_with_transcription diar segs)[i]? = some s' ∧
      s'.id = s.id ∧ s'.start = s.start ∧ s'.stop = s.stop ∧ s'.text = s.text ∧
      (diar = [] → s' = s) ∧
      (diar ≠ [] → s'.speaker = (assignSpeaker diar s).speaker) := by
  by_cases h : diar.isEmpty
  · have hd : diar = [] := List.isEmpty_iff.mp h
    subst hd
    constructor
    · simp [merge_diarization_with_transcription]
    · intro i s hs
      exact ⟨s, by simpa [merge_diarization_with_transcription] using hs,
        rfl, rfl, rfl, rfl, fun _ => rfl, fun hne => absurd rfl hne⟩
  · have hne : diar.isEmpty = false := by simpa using h
    have hdne : diar ≠ [] := by
      intro hd
      rw [hd] at hne
      cases hne
    constructor
    · simp [merge_diarization_with_transcription, hne]
    · intro i s hs
      obtain ⟨f1, f2, f3, f4⟩ := assignSpeaker_fields diar s
      exact ⟨assignSpeaker diar s,
        by simp [merge_diarization_with_transcription, hne, hs],
        f1, f2, f3, f4, fun hd => absurd hd hdne, fun _ => rfl⟩

/-- Witness for C9 at a concrete input: merging one diarization turn into one
transcript segment keeps `id`, `start`, `end` and `text` unchanged. -/
theorem merge_frame_preservation_witness :
    ∃ s', (merge_diarization_with_transcription [⟨1, 3, "A"⟩]
        [⟨7, 2, 4, "hi", none⟩])[0]? = some s' ∧
      s'.id = 7 ∧ s'.start = 2 ∧ s'.stop = 4 ∧ s'.text = "hi" := by
  obtain ⟨s', h0, h1, h2, h3, h4, -, -⟩ :=
    (merge_frame_preservation [⟨1, 3, "A"⟩] [⟨7, 2, 4, "hi", none⟩]).2 0
      ⟨7, 2, 4, "hi", none⟩ (by decide)
  exact ⟨s', h0, h1, h2, h3, h4⟩

/-! ## The chunked-transcription accumulation loop

`src/api.py:155-178` and `src/runpod_handler_transcription.py:247-270` contain
the same loop: per-chunk ASR results arrive in chunk-index order, chunks with
`i > 0` get `offset = i * chunk_duration` added to each segment's `start` and
`end`, and texts/segments are accumulated in order.  The per-chunk ASR results
are the collaborator's output and enter as data. -/

/-- The timestamp shift `segment.start += offset; segment.end += offset`. -/
def shiftSegment (offset : ℚ) (s : WhisperSegment) : WhisperSegment :=
  { s with start := s.start + offset, stop := s.stop + offset }

/-- One iteration of the chunk loop, with `ir` the enumerated pair
`(i, (chunk_text, chunk_segments))`: shift timestamps when `i > 0`, then
append `chunk_text` and extend the accumulated segment list. -/
def chunkStep (chunk_duration : ℚ) (acc : List String × List WhisperSegment)
    (ir : Nat × String × List WhisperSegment) : List String × List WhisperSegment :=
  let chunk_segments :=
    if 0 < ir.1 then ir.2.2.map (shiftSegment ((ir.1 : ℚ) * chunk_duration)) else ir.2.2
  (acc.1 ++ [ir.2.1], acc.2 ++ chunk_segments)

/-- The chunk loop folded over `enumerate(audio_chunks)`, followed by
`full_text = " ".join(all_text)`. -/
def accumulateChunks (chunk_duration : ℚ)
    (results : List (String × List WhisperSegment)) : String × List WhisperSegment :=
  let acc := results.enum.foldl (chunkStep chunk_duration) ([], [])
  (String.intercalate " " acc.1, acc.2)

theorem chunkStep_foldl_snd (cd : ℚ) :
    ∀ (l : List (Nat × String × List WhisperSegment)) (acc : List String × List WhisperSegment),
    (l.foldl (chunkStep cd) acc).2
      = acc.2 ++ (l.map (fun p =>
          if 0 < p.1 then p.2.2.map (shiftSegment ((p.1 : ℚ) * cd)) else p.2.2)).flatten := by
  intro l
  induction l with
  | nil => intro acc; simp
  | cons p t ih =>
    intro acc
    rw [List.foldl_cons, ih]
    simp [chunkStep, List.append_assoc]

/-- C2: the accumulated global segment list is exactly the concatenation, in
chunk order, of each chunk's ASR segments with `i * chunk_duration` added to
`start` and `end` for chunks `i > 0` and chunk `0` left unshifted; instantiated
at the spec's end-to-end scenario (three chunks of duration 60, one local
segment `[5, 10]` each) this gives global segments `[5,10], [65,70],
[125,130]`. -/
theorem chunk_offsets_applied (chunk_duration : ℚ)
    (results : List (String × List WhisperSegment)) :
    (accumulateChunks chunk_duration results).2
      = (results.enum.map (fun p =>
          if p.1 = 0 then p.2.2
          else p.2.2.map (shiftSegment ((p.1 : ℚ) * chunk_duration)))).flatten ∧
    (accumulateChunks 60 [("a", [⟨0, 5, 10, "a", none⟩]), ("b", [⟨0, 5, 10, "b", none⟩]),
        ("c", [⟨0, 5, 10, "c", none⟩])]).2
      = [⟨0, 5, 10, "a", none⟩, ⟨0, 65, 70, "b", none⟩, ⟨0, 125, 130, "c", none⟩] := by
  constructor
  · rw [accumulateChunks, chunkStep_foldl_snd]
    simp only [List.nil_append]
    refine congrArg List.flatten (List.map_congr_left ?_)
    intro p _
    by_cases hp : p.1 = 0
    · simp [hp]
    · simp [hp, Nat.pos_of_ne_zero hp]
  · norm_num [accumulateChunks, chunkStep, shiftSegment, List.enum, List.enumFrom,
      String.intercalate]

/-! ## The orchestrator (src/runpod_handler_orchestrator.py)

Remote service calls go through HTTP; the transport outcome of each call
(timeout, transport error, or a decoded JSON body) is a parameter.  RunPod
response dictionaries are modelled by `PDict`, a record of the keys the
orchestrator inspects (`error`, `output`, `segments`, `num_speakers`) plus the
`text` payload; an absent key is `none`. -/

/-- A JSON dictionary as seen by the orchestrator: the `output` key may itself
hold a dictionary (RunPod wraps the worker's return value in `output`). -/
inductive PDict : Type where
  | mk (error : Option String) (output : Option PDict)
      (segments : Option (List SpeakerSegment)) (num_speakers : Option Nat)
      (text : Option String) : PDict

def PDict.error : PDict → Option String
  | .mk e _ _ _ _ => e

def PDict.output : PDict → Option PDict
  | .mk _ o _ _ _ => o

def PDict.segments : PDict → Option (List SpeakerSegment)
  | .mk _ _ s _ _ => s

def PDict.num_speakers : PDict → Option Nat
  | .mk _ _ _ n _ => n

def PDict.text : PDict → Option String
  | .mk _ _ _ _ t => t

/-- The dictionary `{"error": m}` returned on every failure path. -/
def errDict (m : String) : PDict := .mk (some m) none none none none

@[simp] theorem errDict_error (m : String) : (errDict m).error = some m := rfl

/-- Outcome of one `requests.post` to a RunPod endpoint:
`requests.exceptions.Timeout`, another `requests.exceptions.RequestException`,
any other exception, or an HTTP-success response whose JSON body is `body`. -/
inductive CallOutcome : Type where
  | timeout
  | requestError (msg : String)
  | unexpectedError (msg : String)
  | httpOk (body : PDict)

/-- `call_runpod_endpoint` (src/runpod_handler_orchestrator.py:70-113): maps a
timeout to `{"error": "Endpoint request timed out"}`, a transport error to
`{"error": "Failed to call endpoint: ..."}`, any other exception to its
message; on success, a body with an `error` key is collapsed to just that
error, otherwise the `output` field is unwrapped when present. -/
def call_runpod_endpoint : CallOutcome → PDict
  | .timeout => errDict "Endpoint request timed out"
  | .requestError m => errDict ("Failed to call endpoint: " ++ m)
  | .unexpectedError m => errDict m
  | .httpOk body =>
    match body.error with
    | some e => errDict e
    | none =>
      match body.output with
      | some o => o
      | none => body

/-- The orchestrator job input (src/runpod_handler_orchestrator.py:129-143),
with the documented defaults. -/
structure OrchJobInput where
  audio : Option String := none
  audio_format : Option String := none
  language : Option String := none
  response_format : String := "json"
  timestamps : Bool := false
  diarize : Bool := true
  word_timestamps : Bool := false
  temperature : ℚ := 0

/-- The `trans_payload["input"]` dictionary
(src/runpod_handler_orchestrator.py:169-183). -/
structure TransPayload where
  audio : String
  audio_format : Option String
  language : Option String
  response_format : String
  timestamps : Bool
  word_timestamps : Bool
  temperature : ℚ
  diarization_segments : Option (List SpeakerSegment) := none

/-- Step 1 of the orchestrator (src/runpod_handler_orchestrator.py:148-165):
call diarization when enabled; a response carrying an `error` key is logged
and replaced by `None`. -/
def diarizationStep (inp : OrchJobInput) (diarService : CallOutcome) : Option PDict :=
  if inp.diarize then
    let r := call_runpod_endpoint diarService
    if r.error.isSome then none else some r
  else none

/-- The transcription payload (src/runpod_handler_orchestrator.py:169-183):
timestamps are forced on when diarizing, and `diarization_segments` is added
only when a diarization result with a `segments` key is available. -/
def buildTransPayload (audio : String) (inp : OrchJobInput)
    (diarization_result : Option PDict) : TransPayload :=
  { audio := audio
    audio_format := inp.audio_format
    language := inp.language
    response_format := inp.response_format
    timestamps := inp.timestamps || inp.diarize
    word_timestamps := inp.word_timestamps
    temperature := inp.temperature
    diarization_segments :=
      match diarization_result with
      | some r => r.segments
      | none => none }

/-- `handler` (src/runpod_handler_orchestrator.py:116-196): validate `audio`,
run the soft-failing diarization step, call transcription, and either wrap a
transcription error as `"Transcription failed: ..."` or return the
transcription result unchanged. -/
def orchestratorHandler (inp : OrchJobInput) (diarService : CallOutcome)
    (transService : TransPayload → CallOutcome) : PDict :=
  match inp.audio with
  | none => errDict "Missing required 'audio' field in input"
  | some audio =>
    let diarization_result := diarizationStep inp diarService
    let transcription_result :=
      call_runpod_endpoint (transService (buildTransPayload audio inp diarization_result))
    match transcription_result.error with
    | some e => errDict ("Transcription failed: " ++ e)
    | none => transcription_result

/-- C3: with diarization enabled, if the diarization call fails by timeout,
transport error, or an error field in its response, the orchestrator still
invokes the transcription service with a payload carrying no diarization
segments, returns the transcription result unchanged, and the job result has
no error — a diarization failure alone never produces an error result. -/
theorem orchestrator_diarization_soft_fail (inp : OrchJobInput) (audio : String)
    (diarService : CallOutcome) (transService : TransPayload → CallOutcome)
    (ha : inp.audio = some audio) (hd : inp.diarize = true)
    (hfail : diarService = .timeout ∨ (∃ m, diarService = .requestError m) ∨
      (∃ b, diarService = .httpOk b ∧ b.error.isSome))
    (hok : (call_runpod_endpoint (transService (buildTransPayload audio inp none))).error
      = none) :
    orchestratorHandler inp diarService transService
        = call_runpod_endpoint (transService (buildTransPayload audio inp none)) ∧
    (buildTransPayload audio inp none).diarization_segments = none ∧
    (orchestratorHandler inp diarService transService).error = none := by
  have hstep : diarizationStep inp diarService = none := by
    rcases hfail with h | ⟨m, h⟩ | ⟨b, h, hb⟩ <;> subst h
    · simp [diarizationStep, hd, call_runpod_endpoint]
    · simp [diarizationStep, hd, call_runpod_endpoint]
    · obtain ⟨e, he⟩ := Option.isSome_iff_exists.mp hb
      simp [diarizationStep, hd, call_runpod_endpoint, he]
  have hmain : orchestratorHandler inp diarService transService
      = call_runpod_endpoint (transService (buildTransPayload audio inp none)) := by
    simp only [orchestratorHandler, ha, hstep]
    rw [hok]
  exact ⟨hmain, rfl, hmain ▸ hok⟩

/-- Witness for C3: a concrete job whose diarization call times out while the
transcription call succeeds; the job returns the transcription body with no
error. -/
theorem orchestrator_diarization_soft_fail_witness :
    orchestratorHandler ⟨some "http://a.wav", none, none, "json", false, true, false, 0⟩
        CallOutcome.timeout
        (fun _ => CallOutcome.httpOk (PDict.mk none none none none (some "hello")))
      = PDict.mk none none none none (some "hello") ∧
    (orchestratorHandler ⟨some "http://a.wav", none, none, "json", false, true, false, 0⟩
        CallOutcome.timeout
        (fun _ => CallOutcome.httpOk (PDict.mk none none none none (some "hello")))).error
      = none := by
  have h := orchestrator_diarization_soft_fail
    ⟨some "http://a.wav", none, none, "json", false, true, false, 0⟩ "http://a.wav"
    CallOutcome.timeout
    (fun _ => CallOutcome.httpOk (PDict.mk none none none none (some "hello")))
    rfl rfl (Or.inl rfl) rfl
  exact ⟨h.1.trans rfl, h.2.2⟩

/-- C4 counterexample: diarization succeeds, the transcription service reports
the error `"boom"`, and the orchestrator surfaces
`"Transcription failed: boom"` — not the verbatim service error `"boom"`. -/
theorem orchestrator_error_not_verbatim_counterexample :
    (orchestratorHandler ⟨some "http://a.wav", none, none, "json", false, true, false, 0⟩
        (CallOutcome.httpOk (PDict.mk none none (some [⟨0, 1, "A"⟩]) (some 1) none))
        (fun _ => CallOutcome.httpOk (PDict.mk (some "boom") none none none none))).error
      = some "Transcription failed: boom" ∧
    (some "Transcription failed: boom" : Option String) ≠ some "boom" := by
  exact ⟨rfl, by decide⟩

/-- C4 (amended): whenever the transcription call fails — regardless of how the
diarization step went — the orchestrator aborts with an error result whose
message is the transcription service's error prefixed by
`"Transcription failed: "` (the source wraps the error rather than passing it
verbatim); a preceding successful diarization does not suppress the failure. -/
theorem orchestrator_transcription_hard_fail (inp : OrchJobInput) (audio : String)
    (diarService : CallOutcome) (transService : TransPayload → CallOutcome) (e : String)
    (ha : inp.audio = some audio)
    (he : (call_runpod_endpoint (transService
        (buildTransPayload audio inp (diarizationStep inp diarService)))).error = some e) :
    orchestratorHandler inp diarService transService
      = errDict ("Transcription failed: " ++ e) := by
  simp only [orchestratorHandler, ha, he]

/-- Witness for C4 at a concrete input: a successful diarization followed by a
failing transcription yields the wrapped error dictionary. -/
theorem orchestrator_transcription_hard_fail_witness :
    orchestratorHandler ⟨some "http://a.wav", none, none, "json", false, true, false, 0⟩
        (CallOutcome.httpOk (PDict.mk none none (some [⟨0, 1, "A"⟩]) (some 1) none))
        (fun _ => CallOutcome.httpOk (PDict.mk (some "boom") none none none none))
      = errDict ("Transcription failed: " ++ "boom") :=
  orchestrator_transcription_hard_fail
    ⟨some "http://a.wav", none, none, "json", false, true, false, 0⟩ "http://a.wav"
    (CallOutcome.httpOk (PDict.mk none none (some [⟨0, 1, "A"⟩]) (some 1) none))
    (fun _ => CallOutcome.httpOk (PDict.mk (some "boom") none none none none))
    "boom" rfl rfl

/-! ## The transcription handler (src/runpod_handler_transcription.py)

The handler's file plumbing (download, temp files, cleanup) is I/O around the
deterministic behaviour modelled here: input validation, the chunk pipeline
(whose per-chunk ASR output enters as data), the optional diarization merge,
and response formatting.  Python's `str.startswith` and `str.split()` are
modelled structurally on the character list so that they compute. -/

/-- Python `str.startswith`, on the character list. -/
def pyStartsWith (s p : String) : Bool := p.data.isPrefixOf s.data

/-- Word counter underlying Python `len(s.split())`: `str.split()` with no
argument splits on whitespace runs and discards empty pieces, so its length is
the number of maximal non-whitespace runs. -/
def countWordsAux : List Char → Bool → Nat
  | [], _ => 0
  | c :: t, inWord =>
    if c.isWhitespace then countWordsAux t false
    else (if inWord then 0 else 1) + countWordsAux t true

/-- `len(s.split())` for Python `str.split()` with no separator. -/
def pyWordCount (s : String) : Nat := countWordsAux s.data false

/-- Job input of the transcription handler
(src/runpod_handler_transcription.py:183-197), with the documented defaults. -/
structure TransJobInput where
  audio : Option String := none
  audio_format : Option String := none
  language : Option String := none
  response_format : String := "json"
  timestamps : Bool := false
  temperature : ℚ := 0
  word_timestamps : Bool := false
  diarization_segments : Option (List SpeakerSegment) := none

/-- Python truthiness of the optional `diarization_segments` value: the key is
present and the list non-empty (`if diarization_segments:`). -/
def truthySegments : Option (List SpeakerSegment) → Bool
  | none => false
  | some l => !l.isEmpty

/-- `valid_formats` (src/runpod_handler_transcription.py:200). -/
def valid_formats : List String := ["json", "text", "srt", "vtt", "verbose_json"]

/-- A handler response dictionary: exactly the keys the handler can emit, an
absent key being `none`.  The verbose response's `language` key holds the
(possibly null) request language, hence the nested option. -/
structure ResultDict where
  error : Option String := none
  text : Option String := none
  language : Option (Option String) := none
  duration : Option ℚ := none
  model : Option String := none
  segments : Option (List WhisperSegment) := none
deriving DecidableEq

/-- Response formatting (src/runpod_handler_transcription.py:281-317): `text`,
`srt` and `vtt` return only a text body; `verbose_json` adds language, the sum
of segment durations, the model name and the segment list; the default `json`
branch attaches segments exactly when timestamps were requested or diarization
segments were supplied. -/
def formatResult (inp : TransJobInput) (fmtSrt fmtVtt : List WhisperSegment → String)
    (full_text : String) (all_segments : List WhisperSegment) : ResultDict :=
  if inp.response_format = "text" then { text := some full_text }
  else if inp.response_format = "srt" then { text := some (fmtSrt all_segments) }
  else if inp.response_format = "vtt" then { text := some (fmtVtt all_segments) }
  else if inp.response_format = "verbose_json" then
    { text := some full_text
      language := some inp.language
      duration := some ((all_segments.map fun s => s.stop - s.start).sum)
      model := some "parakeet-tdt-0.6b-v2"
      segments := some all_segments }
  else
    { text := some full_text
      segments :=
        if inp.timestamps || truthySegments inp.diarization_segments
        then some all_segments else none }

/-- `handler` (src/runpod_handler_transcription.py:171-324): validate the
`audio` field, the response format, and (for base64 input) the presence of
`audio_format`; only then run the pipeline — chunk accumulation followed by the
optional diarization merge — and format the response.  The Boolean of the
result records whether the pipeline work (normalisation, chunking, ASR) was
reached. -/
def transcriptionHandler (inp : TransJobInput)
    (fmtSrt fmtVtt : List WhisperSegment → String) (chunk_duration : ℚ)
    (chunk_results : List (String × List WhisperSegment)) : ResultDict × Bool :=
  match inp.audio with
  | none => ({ error := some "Missing required 'audio' field in input" }, false)
  | some audio =>
    if ¬ valid_formats.contains inp.response_format then
      ({ error := some ("Invalid response_format. Must be one of: "
          ++ String.intercalate ", " valid_formats) }, false)
    else if (!(pyStartsWith audio "http://" || pyStartsWith audio "https://")
        && inp.audio_format.isNone) = true then
      ({ error := some "audio_format is required when using base64-encoded audio" }, false)
    else
      let acc := accumulateChunks chunk_duration chunk_results
      let all_segments :=
        if truthySegments inp.diarization_segments then
          merge_diarization_with_transcription (inp.diarization_segments.getD []) acc.2
        else acc.2
      (formatResult inp fmtSrt fmtVtt acc.1 all_segments, true)

/-! ## The single-process API (src/api.py) -/

/-- Modelled from the spec: the response record `models.TranscriptionResponse`
(`{text, segments?, language?, duration, model}` per §6 of the specification);
`models.py` is not among the sources, so the field set is the one
`src/api.py:193-199` constructs. -/
structure TranscriptionResponse where
  text : String
  segments : Option (List WhisperSegment)
  language : Option String
  duration : ℚ
  model : String
deriving DecidableEq

/-- The `TranscriptionResponse(...)` built by src/api.py:193-199: segments are
attached iff timestamps were requested or the format is `verbose_json`, and
`duration` is `sum(len(segment.text.split()))/150` when any segment exists,
else `0` — a word-count estimate, never the sum of segment durations. -/
def buildApiResponse (response_format : String) (timestamps : Bool)
    (language : Option String) (full_text : String)
    (all_segments : List WhisperSegment) : TranscriptionResponse :=
  { text := full_text
    segments :=
      if timestamps ∨ response_format = "verbose_json" then some all_segments else none
    language := language
    duration :=
      if all_segments.isEmpty then 0
      else (all_segments.map fun s => (pyWordCount s.text : ℚ)).sum / 150
    model := "parakeet-tdt-0.6b-v2" }

/-- Result of the API transcription endpoint: a JSON body, a plain-text body,
or an HTTP error. -/
inductive ApiOutcome : Type where
  | body (resp : TranscriptionResponse)
  | plain (s : String)
  | httpError (status : Nat) (detail : String)
deriving DecidableEq

/-- `transcribe_audio` (src/api.py:74-217), given the collaborator outputs
(per-chunk ASR results, the diarization result, the configured token and the
formatter functions).  No validation precedes the pipeline: the upload is
normalized, chunked, transcribed and merged before the response format is
examined, so the work flag of the pair is `true` on every path; an unsupported
format raises a 400 inside the `try` block, which the handler's generic
`except` re-raises as a 500 whose detail is the string of the original
exception. -/
def apiTranscribe (response_format : String) (timestamps : Bool)
    (language : Option String) (diarize : Bool) (hf_token : Option String)
    (diarResult : DiarizationResult) (chunk_duration : ℚ)
    (chunk_results : List (String × List WhisperSegment))
    (fmtSrt fmtVtt : List WhisperSegment → String) : ApiOutcome × Bool :=
  let acc := accumulateChunks chunk_duration chunk_results
  let diarizer := diarize && hf_token.isSome
  let all_segments :=
    if diarizer && !diarResult.segments.isEmpty then
      Diarizer.merge_with_transcription diarResult acc.2
    else acc.2
  let response := buildApiResponse response_format timestamps language acc.1 all_segments
  if response_format = "json" then (.body response, true)
  else if response_format = "text" then (.plain acc.1, true)
  else if response_format = "srt" then (.plain (fmtSrt all_segments), true)
  else if response_format = "vtt" then (.plain (fmtVtt all_segments), true)
  else if response_format = "verbose_json" then (.body response, true)
  else (.httpError 500 ("400: Unsupported response format: " ++ response_format), true)

/-- The sum of per-segment durations, the quantity the spec calls "the sum of
segment durations". -/
def sumSegDurations (l : List WhisperSegment) : ℚ :=
  (l.map fun s => s.stop - s.start).sum

/-- C6 counterexample: a handler request with `response_format = "json"`,
`timestamps = false` and non-empty `diarization_segments` gets a `segments`
field in its response, although timestamps were not requested. -/
theorem handler_json_segments_counterexample :
    (transcriptionHandler
        { audio := some "http://a.wav", response_format := "json", timestamps := false,
          diarization_segments := some [⟨0, 1, "A"⟩] }
        (fun _ => "") (fun _ => "") 60 [("hi", [⟨0, 0, 1, "hi", none⟩])]).1.segments.isSome
      = true ∧
    ({ audio := some "http://a.wav", response_format := "json", timestamps := false,
       diarization_segments := some [⟨0, 1, "A"⟩] } : TransJobInput).timestamps = false :=
  ⟨rfl, rfl⟩

/-- C6 (amended): for a `json` response the `segments` field is present iff
timestamps were requested **or, in the serverless handler, non-empty
diarization segments were supplied**; in the single-process API the `segments`
field is populated iff timestamps were requested or the format is
`verbose_json`. -/
theorem json_segments_condition (inp : TransJobInput) (audio : String)
    (fmtSrt fmtVtt : List WhisperSegment → String) (cd : ℚ)
    (res : List (String × List WhisperSegment))
    (ha : inp.audio = some audio) (hf : inp.response_format = "json")
    (hguard : (!(pyStartsWith audio "http://" || pyStartsWith audio "https://")
        && inp.audio_format.isNone) = false) :
    (transcriptionHandler inp fmtSrt fmtVtt cd res).1.segments.isSome
        = (inp.timestamps || truthySegments inp.diarization_segments) ∧
    ∀ (rf : String) (ts : Bool) (lang : Option String) (txt : String)
        (segs : List WhisperSegment),
      (buildApiResponse rf ts lang txt segs).segments.isSome = true
        ↔ (ts = true ∨ rf = "verbose_json") := by
  constructor
  · have hv : valid_formats.contains inp.response_format = true := by
      rw [hf]; rfl
    simp only [transcriptionHandler, ha, hv, not_true, if_false, hguard, formatResult, hf]
    norm_num
    cases hts : inp.timestamps <;> cases hds : truthySegments inp.diarization_segments <;>
      simp [valid_formats, hts, hds]
  · intro rf ts lang txt segs
    by_cases h : ts = true ∨ rf = "verbose_json" <;> simp [buildApiResponse, h]

/-- Witness for C6: a handler request with timestamps on gets segments, and a
`verbose_json` API response always populates them. -/
theorem json_segments_condition_witness :
    (transcriptionHandler
        { audio := some "http://a.wav", response_format := "json", timestamps := true }
        (fun _ => "") (fun _ => "") 60 [("hi", [⟨0, 0, 1, "hi", none⟩])]).1.segments.isSome
      = (true || truthySegments none) ∧
    ((buildApiResponse "verbose_json" false none "x" []).segments.isSome = true
      ↔ (false = true ∨ "verbose_json" = "verbose_json")) := by
  have h := json_segments_condition
    { audio := some "http://a.wav", response_format := "json", timestamps := true }
    "http://a.wav" (fun _ => "") (fun _ => "") 60 [("hi", [⟨0, 0, 1, "hi", none⟩])]
    rfl rfl (by decide)
  exact ⟨h.1, h.2 "verbose_json" false none "x" []⟩

theorem merge_preserves_durations (diar : List SpeakerSegment)
    (segs : List WhisperSegment) :
    (merge_diarization_with_transcription diar segs).map (fun s => s.stop - s.start)
      = segs.map fun s => s.stop - s.start := by
  by_cases h : diar.isEmpty
  · simp [merge_diarization_with_transcription, h]
  · have hne : diar.isEmpty = false := by simpa using h
    rw [merge_diarization_with_transcription, hne]
    simp only [Bool.false_eq_true, if_false, List.map_map]
    refine List.map_congr_left ?_
    intro s _
    obtain ⟨-, f2, f3, -⟩ := assignSpeaker_fields diar s
    simp [Function.comp, f2, f3]

/-- C7 counterexample: in the single-process API, even with exact segment
durations available (one segment `[0, 10]` with text `"hello world"`), the
response's `duration` is the word-count estimate `2/150 = 1/75`, not the sum
of segment durations `10`. -/
theorem api_duration_counterexample :
    (buildApiResponse "verbose_json" true none "hello world"
        [⟨0, 0, 10, "hello world", none⟩]).duration = 1/75 ∧
    sumSegDurations [⟨0, 0, 10, "hello world", none⟩] = 10 ∧
    (1/75 : ℚ) ≠ 10 := by
  have hw : pyWordCount "hello world" = 2 := by decide
  refine ⟨?_, by norm_num [sumSegDurations], by norm_num⟩
  simp [buildApiResponse, hw]
  norm_num

/-- C7 (amended): the serverless handler's `verbose_json` duration is the sum
of per-segment durations of the accumulated segments (the diarization merge
does not change them); the single-process API's duration — for `json` and
`verbose_json` alike — is always the word-count estimate (total recognized
words over the fixed 150 words-per-minute constant, `0` when there are no
segments) and is invariant under shifting all segment timestamps, i.e. it
never uses the available segment durations; the serverless handler's simple
`json` response carries no `duration` field at all. -/
theorem duration_semantics (inp : TransJobInput) (audio : String)
    (fmtSrt fmtVtt : List WhisperSegment → String) (cd : ℚ)
    (res : List (String × List WhisperSegment))
    (ha : inp.audio = some audio) (hf : inp.response_format = "verbose_json")
    (hguard : (!(pyStartsWith audio "http://" || pyStartsWith audio "https://")
        && inp.audio_format.isNone) = false) :
    (transcriptionHandler inp fmtSrt fmtVtt cd res).1.duration
        = some (sumSegDurations (accumulateChunks cd res).2) ∧
    (∀ (rf : String) (ts : Bool) (lang : Option String) (txt : String)
        (segs : List WhisperSegment),
      (buildApiResponse rf ts lang txt segs).duration
        = if segs.isEmpty then 0
          else (segs.map fun s => (pyWordCount s.text : ℚ)).sum / 150) ∧
    (∀ (rf : String) (ts : Bool) (lang : Option String) (txt : String)
        (segs : List WhisperSegment) (off : ℚ),
      (buildApiResponse rf ts lang txt (segs.map (shiftSegment off))).duration
        = (buildApiResponse rf ts lang txt segs).duration) ∧
    (∀ (inpJ : TransJobInput) (audioJ : String)
        (fS fV : List WhisperSegment → String) (cdJ : ℚ)
        (resJ : List (String × List WhisperSegment)),
      inpJ.audio = some audioJ → inpJ.response_format = "json" →
      (!(pyStartsWith audioJ "http://" || pyStartsWith audioJ "https://")
          && inpJ.audio_format.isNone) = false →
      (transcriptionHandler inpJ fS fV cdJ resJ).1.duration = none) := by
  refine ⟨?_, fun rf ts lang txt segs => rfl, ?_, ?_⟩
  · have hv : valid_formats.contains inp.response_format = true := by
      rw [hf]; rfl
    simp only [transcriptionHandler, ha, hv, not_true, if_false, hguard, formatResult, hf]
    by_cases hds : truthySegments inp.diarization_segments = true <;>
      simp [hds, valid_formats, merge_preserves_durations, sumSegDurations]
  · intro rf ts lang txt segs off
    have hmap : segs.map ((fun s => ((pyWordCount s.text : ℚ))) ∘ shiftSegment off)
        = segs.map fun s => ((pyWordCount s.text : ℚ)) :=
      List.map_congr_left fun s _ => rfl
    simp [buildApiResponse, List.map_map, hmap]
  · intro inpJ audioJ fS fV cdJ resJ haJ hfJ hguardJ
    have hv : valid_formats.contains inpJ.response_format = true := by
      rw [hfJ]; rfl
    simp only [transcriptionHandler, haJ, hv, not_true, if_false, hguardJ, formatResult, hfJ]
    simp [valid_formats, apply_ite ResultDict.duration]

/-- Witness for C7: the handler's `verbose_json` duration at a concrete input
equals the sum of segment durations, the API duration formula instantiated
concretely, and a concrete handler `json` response with no `duration` key. -/
theorem duration_semantics_witness :
    (transcriptionHandler
        { audio := some "http://a.wav", response_format := "verbose_json" }
        (fun _ => "") (fun _ => "") 60 [("hi", [⟨0, 0, 10, "hi", none⟩])]).1.duration
      = some (sumSegDurations
          (accumulateChunks 60 [("hi", [⟨0, 0, 10, "hi", none⟩])]).2) ∧
    (buildApiResponse "json" false none "hi" []).duration
      = (if ([] : List WhisperSegment).isEmpty then 0
        else (([] : List WhisperSegment).map fun s => (pyWordCount s.text : ℚ)).sum / 150) ∧
    (transcriptionHandler
        { audio := some "http://a.wav", response_format := "json", timestamps := true }
        (fun _ => "") (fun _ => "") 60 [("hi", [⟨0, 0, 10, "hi", none⟩])]).1.duration
      = none := by
  have h := duration_semantics
    { audio := some "http://a.wav", response_format := "verbose_json" }
    "http://a.wav" (fun _ => "") (fun _ => "") 60 [("hi", [⟨0, 0, 10, "hi", none⟩])]
    rfl rfl (by decide)
  refine ⟨h.1, h.2.1 "json" false none "hi" [], ?_⟩
  exact h.2.2.2 { audio := some "http://a.wav", response_format := "json", timestamps := true }
    "http://a.wav" (fun _ => "") (fun _ => "") 60 [("hi", [⟨0, 0, 10, "hi", none⟩])]
    rfl rfl (by decide)

/-- C8 counterexample: in the single-process API a request with the
unsupported `response_format = "xml"` still runs the whole pipeline (the work
flag is `true`) and then surfaces a 500 error — the work is attempted and the
rejection is neither immediate nor an input error. -/
theorem api_invalid_format_counterexample :
    (apiTranscribe "xml" false none false none ⟨[], 0⟩ 60 [("hi", [⟨0, 0, 1, "hi", none⟩])]
        (fun _ => "") (fun _ => "")).2 = true ∧
    ∃ d, (apiTranscribe "xml" false none false none ⟨[], 0⟩ 60
        [("hi", [⟨0, 0, 1, "hi", none⟩])] (fun _ => "") (fun _ => "")).1
      = ApiOutcome.httpError 500 d :=
  ⟨rfl, ⟨_, rfl⟩⟩

/-- C8 (amended): in the serverless transcription handler an unsupported
`response_format` produces an input-error result immediately and no
transcription work is attempted; in the single-process API, by contrast, the
pipeline is always run before the response format is examined, so the work
flag is `true` on every path, unsupported formats included. -/
theorem invalid_format_input_error (inp : TransJobInput) (audio : String)
    (fmtSrt fmtVtt : List WhisperSegment → String) (cd : ℚ)
    (res : List (String × List WhisperSegment))
    (ha : inp.audio = some audio)
    (hbad : valid_formats.contains inp.response_format = false) :
    ((transcriptionHandler inp fmtSrt fmtVtt cd res).1.error.isSome = true ∧
     (transcriptionHandler inp fmtSrt fmtVtt cd res).2 = false) ∧
    ∀ (rf : String) (ts : Bool) (lang : Option String) (dz : Bool)
      (hft : Option String) (dr : DiarizationResult) (cd' : ℚ)
      (res' : List (String × List WhisperSegment))
      (fS fV : List WhisperSegment → String),
      (apiTranscribe rf ts lang dz hft dr cd' res' fS fV).2 = true := by
  constructor
  · have hmem : inp.response_format ∉ valid_formats := by simpa using hbad
    constructor <;> simp [transcriptionHandler, ha, hmem]
  · intro rf ts lang dz hft dr cd' res' fS fV
    simp [apiTranscribe, apply_ite Prod.snd]

/-- Witness for C8: a handler job with `response_format = "xml"` is rejected
with an error before any work, and a concrete API call has its work flag
set. -/
theorem invalid_format_input_error_witness :
    ((transcriptionHandler { audio := some "http://a.wav", response_format := "xml" }
        (fun _ => "") (fun _ => "") 60 [("hi", [⟨0, 0, 1, "hi", none⟩])]).1.error.isSome = true ∧
     (transcriptionHandler { audio := some "http://a.wav", response_format := "xml" }
        (fun _ => "") (fun _ => "") 60 [("hi", [⟨0, 0, 1, "hi", none⟩])]).2 = false) ∧
    (apiTranscribe "json" false none false none ⟨[], 0⟩ 60 [("hi", [⟨0, 0, 1, "hi", none⟩])]
        (fun _ => "") (fun _ => "")).2 = true := by
  have h := invalid_format_input_error
    { audio := some "http://a.wav", response_format := "xml" } "http://a.wav"
    (fun _ => "") (fun _ => "") 60 [("hi", [⟨0, 0, 1, "hi", none⟩])] rfl (by decide)
  exact ⟨h.1, h.2 "json" false none false none ⟨[], 0⟩ 60
    [("hi", [⟨0, 0, 1, "hi", none⟩])] (fun _ => "") (fun _ => "")⟩

/-- C10 counterexample: with timestamps not requested, the `json` and
`verbose_json` API responses for the same successful request differ — the
`json` body has no segments while `verbose_json` carries them. -/
theorem api_json_verbose_not_equivalent_counterexample :
    (apiTranscribe "json" false none false none ⟨[], 0⟩ 60 [("hi", [⟨0, 0, 1, "hi", none⟩])]
        (fun _ => "") (fun _ => "")).1
      ≠ (apiTranscribe "verbose_json" false none false none ⟨[], 0⟩ 60
        [("hi", [⟨0, 0, 1, "hi", none⟩])] (fun _ => "") (fun _ => "")).1 := by
  decide

/-- C10 (amended): the `json` and `verbose_json` API responses serialize the
same `TranscriptionResponse` and are identical exactly when timestamps were
requested; the `text`, `duration`, `language` and `model` fields always agree
between the two formats, so without timestamps they differ only in the
`segments` field (absent for `json`, populated for `verbose_json`). -/
theorem api_json_verbose_equivalent_iff_timestamps (ts : Bool) (lang : Option String)
    (dz : Bool) (hft : Option String) (dr : DiarizationResult) (cd : ℚ)
    (res : List (String × List WhisperSegment)) (fS fV : List WhisperSegment → String)
    (hts : ts = true) :
    apiTranscribe "json" ts lang dz hft dr cd res fS fV
      = apiTranscribe "verbose_json" ts lang dz hft dr cd res fS fV ∧
    ∀ (rf₁ rf₂ : String) (ts' : Bool) (lang' : Option String) (txt : String)
      (segs : List WhisperSegment),
      (buildApiResponse rf₁ ts' lang' txt segs).text
          = (buildApiResponse rf₂ ts' lang' txt segs).text ∧
      (buildApiResponse rf₁ ts' lang' txt segs).duration
          = (buildApiResponse rf₂ ts' lang' txt segs).duration ∧
      (buildApiResponse rf₁ ts' lang' txt segs).language
          = (buildApiResponse rf₂ ts' lang' txt segs).language ∧
      (buildApiResponse rf₁ ts' lang' txt segs).model
          = (buildApiResponse rf₂ ts' lang' txt segs).model := by
  constructor
  · subst hts
    simp [apiTranscribe, buildApiResponse]
  · intro rf₁ rf₂ ts' lang' txt segs
    exact ⟨rfl, rfl, rfl, rfl⟩

/-- Witness for C10: with timestamps requested, a concrete request gets
byte-identical `json` and `verbose_json` responses. -/
theorem api_json_verbose_equivalent_iff_timestamps_witness :
    apiTranscribe "json" true none false none ⟨[], 0⟩ 60 [("hi", [⟨0, 0, 1, "hi", none⟩])]
        (fun _ => "") (fun _ => "")
      = apiTranscribe "verbose_json" true none false none ⟨[], 0⟩ 60
        [("hi", [⟨0, 0, 1, "hi", none⟩])] (fun _ => "") (fun _ => "") :=
  (api_json_verbose_equivalent_iff_timestamps true none false none ⟨[], 0⟩ 60
    [("hi", [⟨0, 0, 1, "hi", none⟩])] (fun _ => "") (fun _ => "") rfl).1
